import Mathlib

/-!
Shallow embedding of the `escpos` Go package (file `escpos.go`): a stateful
ESC/POS command encoder plus a monochrome image rasterization pipeline.

Modelling conventions:
* Bytes are `Nat` values `< 256`; the byte stream written to the sink
  (`io.Writer dst`) is the `out : List Nat` field of the state.
* Go `uint8` / `uint16` conversions are `% 256` / `% 65536` on `Nat`
  (via `Int.emod` for possibly negative parsed integers, matching Go's
  two's-complement truncating conversions).
* `beelog.Warn` / `beelog.Critical` diagnostics are modelled as strings
  appended to a `log : List String` field.  `beelog.Debug` output (gated
  behind the `Verbose` flag) carries no information relevant to any claim
  and is not modelled; neither is the `Verbose` flag itself.
* The external image decoder (`image.Decode`, from Go's standard library,
  together with base64 stream decoding) is abstracted as a parameter
  `dec : String → Except String goImage`; everything downstream of it
  (`getPixels`'s pixel-grid construction, `removeTransparency`,
  `makeGrayscale`, `closestNDivisibleBy8`, `rasterize`, `getPixelValue`,
  frame assembly in `PrintImage`) is translated from the source.
* Go string indexing/slicing panics are modelled with `Except goPanic`.
-/

namespace escpos

/-- One diagnostic line emitted through the package-global `beelog` logger
(`Warn` and `Critical` calls; the exact format-string rendering is kept
close to, but not byte-identical with, the Go `fmt.Sprintf` output). -/
abbrev LogLine := String

/-- The `Escpos` struct: style state (`uint8` fields, held as `Nat`),
plus the trace of bytes written to the destination sink and the trace of
logged diagnostics. -/
structure Escpos where
  width : Nat
  height : Nat
  underline : Nat
  emphasize : Nat
  upsidedown : Nat
  rotate : Nat
  reverse : Nat
  out : List Nat
  log : List LogLine
  deriving Repr, DecidableEq

/-- `WriteRaw`: the single write primitive.  The Go code calls
`e.dst.Write(data)` for non-empty data and *discards* both of the sink's
return values, returning the hard-coded pair `(0, nil)`.  The sink's
response for this call is the `sinkResp` argument (`none` = success,
`some msg` = write error); as in the source it has no influence on the
result. -/
def WriteRaw (e : Escpos) (data : List Nat) (sinkResp : Option String) :
    Escpos × Nat × Option String :=
  (if data.isEmpty then e else { e with out := e.out ++ data }, 0, none)

/-- State effect of `WriteRaw`/`Write` (sink response irrelevant, see
`WriteRaw`).  All opcode senders go through this. -/
def writeB (e : Escpos) (data : List Nat) : Escpos :=
  (WriteRaw e data none).1

/-- Append a `beelog.Critical`/`beelog.Warn` line. -/
def logLine (e : Escpos) (msg : LogLine) : Escpos :=
  { e with log := e.log ++ [msg] }

/-- `reset`: restore all style fields to their defaults. -/
def reset (e : Escpos) : Escpos :=
  { e with width := 1, height := 1, underline := 0, emphasize := 0,
           upsidedown := 0, rotate := 0, reverse := 0 }

/-- `New`: fresh printer session (zero-valued struct, then `reset`). -/
def escposNew : Escpos :=
  reset { width := 0, height := 0, underline := 0, emphasize := 0,
          upsidedown := 0, rotate := 0, reverse := 0, out := [], log := [] }

/-- Go `uint8` subtraction `x - 1` (wrapping), for a stored field `x < 256`. -/
def u8sub1 (x : Nat) : Nat := (x + 255) % 256

/-- `sendFontSize`: `GS ! n` with `n = ((width-1) << 4) | (height-1)`
computed in `uint8` arithmetic. -/
def sendFontSize (e : Escpos) : Escpos :=
  writeB e [0x1D, 0x21, ((u8sub1 e.width <<< 4) % 256) ||| u8sub1 e.height]

/-- `SetFontSize`: validates `0 < w,h ≤ 8`, silently caps `h > 5` to `5`
(with a warning), stores the values and emits via `sendFontSize`; out of
range logs a critical diagnostic and does nothing else. -/
def SetFontSize (w h : Nat) (e : Escpos) : Escpos :=
  if 0 < w ∧ 0 < h ∧ w ≤ 8 ∧ h ≤ 8 then
    let capped := h > 5
    let h := if capped then 5 else h
    let e := if capped then
        logLine e "change height to 5, because height larger than 5 may cause some error"
      else e
    sendFontSize { e with width := w, height := h }
  else
    logLine e ("Invalid font size passed: " ++ toString w ++ " x " ++ toString h)

/-- `sendUnderline`: `ESC - n`. -/
def sendUnderline (e : Escpos) : Escpos := writeB e [0x1B, 0x2D, e.underline]

/-- `sendEmphasize`: `ESC E n`. -/
def sendEmphasize (e : Escpos) : Escpos := writeB e [0x1B, 0x45, e.emphasize]

/-- `sendUpsidedown`: `ESC \x7b n`. -/
def sendUpsidedown (e : Escpos) : Escpos := writeB e [0x1B, 0x7B, e.upsidedown]

/-- `sendRotate`: `ESC V n`. -/
def sendRotate (e : Escpos) : Escpos := writeB e [0x1B, 0x56, e.rotate]

/-- `sendReverse`: `GS B n`. -/
def sendReverse (e : Escpos) : Escpos := writeB e [0x1D, 0x42, e.reverse]

/-- `sendMoveX`: `ESC $ xL xH`, `x : uint16`. -/
def sendMoveX (x : Nat) (e : Escpos) : Escpos :=
  writeB e [0x1B, 0x24, x % 256, x / 256 % 256]

/-- `sendMoveY`: `GS $ yL yH`, `y : uint16`. -/
def sendMoveY (y : Nat) (e : Escpos) : Escpos :=
  writeB e [0x1D, 0x24, y % 256, y / 256 % 256]

/-- `SetUnderline`. -/
def SetUnderline (v : Nat) (e : Escpos) : Escpos :=
  sendUnderline { e with underline := v }

/-- `SetEmphasize`. -/
def SetEmphasize (v : Nat) (e : Escpos) : Escpos :=
  sendEmphasize { e with emphasize := v }

/-- `SetUpsidedown`. -/
def SetUpsidedown (v : Nat) (e : Escpos) : Escpos :=
  sendUpsidedown { e with upsidedown := v }

/-- `SetRotate`. -/
def SetRotate (v : Nat) (e : Escpos) : Escpos :=
  sendRotate { e with rotate := v }

/-- `SetReverse`. -/
def SetReverse (v : Nat) (e : Escpos) : Escpos :=
  sendReverse { e with reverse := v }

/-- `Pulse`: fixed drawer-kick opcode `ESC p \x02`. -/
def Pulse (e : Escpos) : Escpos := writeB e [0x1B, 0x70, 0x02]

/-- `Linefeed`: writes the literal newline byte. -/
def Linefeed (e : Escpos) : Escpos := writeB e [0x0A]

/-- `Cut`: `GS V A 0`. -/
def Cut (e : Escpos) : Escpos := writeB e [0x1D, 0x56, 0x41, 0x30]

/-- `FormfeedN`: clamps `n` to `[0,255]` (a no-op for `uint8` input) and
writes `ESC J n` (note the source writes `J`, not `d`, in `FormfeedN`). -/
def FormfeedN (n : Nat) (e : Escpos) : Escpos :=
  let n := if 255 < n then 255 else n
  writeB e [0x1B, 0x4A, n]

/-- `Formfeed` = `FormfeedN 1`. -/
def Formfeed (e : Escpos) : Escpos := FormfeedN 1 e

/-- `SetFont`: maps `"A"/"B"/"C"` to `0/1/2`, anything else warns and
defaults to `0`; always emits `ESC M f`. -/
def SetFont (font : String) (e : Escpos) : Escpos :=
  let fl : Nat × List LogLine :=
    if font = "A" then (0, [])
    else if font = "B" then (1, [])
    else if font = "C" then (2, [])
    else (0, ["Invalid font: " ++ font ++ ", defaulting to A"])
  writeB { e with log := e.log ++ fl.2 } [0x1B, 0x4D, fl.1]

/-- `SetAlign`: maps `"left"/"center"/"right"` to `0/1/2`; an unknown name
logs a warning and leaves the index at `0`; the opcode `ESC a n` is emitted
in every case. -/
def SetAlign (align : String) (e : Escpos) : Escpos :=
  let al : Nat × List LogLine :=
    if align = "left" then (0, [])
    else if align = "center" then (1, [])
    else if align = "right" then (2, [])
    else (0, ["Invalid alignment: " ++ align])
  writeB { e with log := e.log ++ al.2 } [0x1B, 0x61, al.1]

/-- A Go `map[string]string` of operation parameters, as a key-value list
(keys unique; first binding wins, matching map-lookup semantics). -/
abbrev Params := List (String × String)

/-- Map lookup `params[k]` returning `some v` iff the key is present. -/
def getParam (params : Params) (k : String) : Option String :=
  (params.find? (fun p => p.1 = k)).map (fun p => p.2)

/-- The recurring Go idiom `v, ok := params[k]; ok && (v == "true" || v == "1")`. -/
def boolParam (params : Params) (k : String) : Bool :=
  match getParam params k with
  | some v => v = "true" || v = "1"
  | none => false

/-- Digit run for `strconv.Atoi`: all characters must be decimal digits and
there must be at least one. -/
def parseDigits (cs : List Char) : Option Nat :=
  if cs ≠ [] ∧ cs.all Char.isDigit then
    some (cs.foldl (fun a c => a * 10 + (c.toNat - 48)) 0)
  else
    none

/-- `strconv.Atoi`: optional single sign followed by decimal digits.
(Go additionally errors when the value overflows the platform `int`;
that bound is not modelled — no claim depends on it.) -/
def atoi (s : String) : Option Int :=
  match s.data with
  | '+' :: rest => (parseDigits rest).map Int.ofNat
  | '-' :: rest => (parseDigits rest).map (fun n => -(n : Int))
  | cs => (parseDigits cs).map Int.ofNat

/-- Go conversion `uint8(i)`: two's-complement truncation. -/
def u8ofInt (i : Int) : Nat := (i % 256).toNat

/-- Go conversion `uint16(i)`: two's-complement truncation. -/
def u16ofInt (i : Int) : Nat := (i % 65536).toNat

/-- A Go runtime panic reachable from this package. -/
inductive goPanic where
  | sliceOutOfRange (hi len : Nat)
  deriving Repr, DecidableEq

/-- Go string slice `s[lo:hi]`: panics when `lo ≤ hi ≤ len(s)` fails.
(Go slices bytes; strings are modelled at character granularity, which
agrees on the ASCII parameter values this package manipulates.) -/
def goStrSlice (s : String) (lo hi : Nat) : Except goPanic String :=
  if lo ≤ hi ∧ hi ≤ s.length then
    Except.ok (String.mk ((s.data.drop lo).take (hi - lo)))
  else
    Except.error (goPanic.sliceOutOfRange hi s.length)

/-- The package's XML-entity replacement table, in source listing order.
(Go iterates the map in unspecified order; the substitution patterns are
chosen so the order is immaterial except for the documented
ampersand-last caveat, which no claim exercises.) -/
def textReplaceMap : List (String × String) :=
  [("&#9;", "\x09"), ("&#x9;", "\x09"),
   ("&#10;", "\n"), ("&#xA;", "\n"),
   ("&apos;", "\x27"), ("&quot;", "\x22"),
   ("&gt;", ">"), ("&lt;", "<"),
   ("&amp;", "&")]

/-- `textReplace`: apply every substitution of `textReplaceMap`. -/
def textReplace (data : String) : String :=
  textReplaceMap.foldl (fun d kv => d.replace kv.1 kv.2) data

/-- Byte content of a Go string payload (ASCII-faithful; a payload is
non-empty iff its byte string is, which is all any claim observes). -/
def strBytes (s : String) : List Nat := s.data.map Char.toNat

/-- Steps of `Text` after the font-selection step (which is the only one
that can panic): DW, DH, Width, Height, X, Y, then entity substitution and
the payload write. -/
def textTail (params : Params) (data : String) (e : Escpos) : Escpos :=
  let e := if boolParam params "DW" then SetFontSize 2 e.height e else e
  let e := if boolParam params "DH" then SetFontSize e.width 2 e else e
  let e := match getParam params "Width" with
    | some w =>
      match atoi w with
      | some i => SetFontSize (u8ofInt i) e.height e
      | none => logLine e ("Invalid font width: " ++ w)
    | none => e
  let e := match getParam params "Height" with
    | some h =>
      match atoi h with
      | some i => SetFontSize e.width (u8ofInt i) e
      | none => logLine e ("Invalid font height: " ++ h)
    | none => e
  let e := match getParam params "X" with
    | some x =>
      match atoi x with
      | some i => sendMoveX (u16ofInt i) e
      | none => logLine e ("Invalid x param " ++ x)
    | none => e
  let e := match getParam params "Y" with
    | some y =>
      match atoi y with
      | some i => sendMoveY (u16ofInt i) e
      | none => logLine e ("Invalid y param " ++ y)
    | none => e
  let d := textReplace data
  if 0 < d.length then writeB e (strBytes d) else e

/-- `Text`: applies style parameters in source order, then writes the
substituted payload.  The font step slices `font[5:6]`, which panics for
values shorter than 6 characters; the panic aborts the whole call. -/
def Text (params : Params) (data : String) (e : Escpos) : Except goPanic Escpos :=
  let e := match getParam params "Align" with
    | some a => SetAlign a e
    | none => e
  let e := if boolParam params "EM" then SetEmphasize 1 e else e
  let e := if boolParam params "UL" then SetUnderline 1 e else e
  let e := if boolParam params "Reverse" then SetReverse 1 e else e
  let e := if boolParam params "Rotate" then SetRotate 1 e else e
  match getParam params "Font" with
  | some font =>
    match goStrSlice font 5 6 with
    | Except.error p => Except.error p
    | Except.ok sub => Except.ok (textTail params data (SetFont sub.toUpper e))
  | none => Except.ok (textTail params data e)

/-- The parameter-handling prelude of `Feed` (source lines 427-443):
optional `Line` (form feed) and optional `Unit` (dot move), each logging a
critical diagnostic when unparsable. -/
def feedParams (params : Params) (e : Escpos) : Escpos :=
  let e := match getParam params "Line" with
    | some l =>
      match atoi l with
      | some i => FormfeedN (u8ofInt i) e
      | none => logLine e ("Invalid line number " ++ l)
    | none => e
  match getParam params "Unit" with
  | some u =>
    match atoi u with
    | some i => sendMoveY (u16ofInt i) e
    | none => logLine e ("Invalid unit number " ++ u)
  | none => e

/-- `Feed`: the parameter prelude, then a linefeed, then `reset` and
unconditional re-emission of every style opcode at its default value, in
source order. -/
def Feed (params : Params) (e : Escpos) : Escpos :=
  sendFontSize (sendUpsidedown (sendUnderline (sendReverse (sendRotate
    (sendEmphasize (reset (Linefeed (feedParams params e))))))))

/-- `FeedAndCut`: optional one-line feed (`Type=feed`), then always cut. -/
def FeedAndCut (params : Params) (e : Escpos) : Escpos :=
  let e := if getParam params "Type" = some "feed" then Formfeed e else e
  Cut e

/-- The `pixel` struct.  The Go fields are `int`; throughout the pipeline
every value lies in `[0,255]` (they come from 16-bit color samples shifted
right by 8), so `Nat` is faithful. -/
structure pixel where
  R : Nat
  G : Nat
  B : Nat
  A : Nat
  deriving Repr, DecidableEq

/-- A decoded image, as the pipeline observes it: its bounds
(`Bounds().Max.X/Y`) and its color samples (`At(x,y).RGBA()`, four
16-bit-range values per the `image.Color` contract). -/
structure goImage where
  width : Nat
  height : Nat
  colorAt : Nat → Nat → Nat × Nat × Nat × Nat

/-- An abstract decoder standing for base64-decoding the payload string and
running Go's `image.Decode` on it (external standard-library code):
`Except.error` is the decode error, `Except.ok` the decoded image. -/
abbrev Decoder := String → Except String goImage

/-- `rgbaToPixel`: shift each 16-bit sample down to 8 bits. -/
def rgbaToPixel (rgba : Nat × Nat × Nat × Nat) : pixel :=
  ⟨rgba.1 >>> 8, rgba.2.1 >>> 8, rgba.2.2.1 >>> 8, rgba.2.2.2 >>> 8⟩

/-- `getPixels`: decode the payload, then materialize the row-major pixel
grid (`height` rows of `width` pixels). -/
def getPixels (dec : Decoder) (imgFile : String) :
    Except String (Nat × Nat × List (List pixel)) :=
  match dec imgFile with
  | Except.error err => Except.error err
  | Except.ok img =>
    Except.ok (img.width, img.height,
      (List.range img.height).map (fun y =>
        (List.range img.width).map (fun x => rgbaToPixel (img.colorAt x y))))

/-- Per-pixel step of `removeTransparency`: compose over opaque white,
`c' = (α·c + (255-α)·255) / 255`, and force `α = 255`.  (Go `int`
arithmetic; non-negative for the in-range values the decoder produces.) -/
def flattenPixel (p : pixel) : pixel :=
  let alpha := p.A
  let invAlpha := 255 - alpha
  ⟨(alpha * p.R + invAlpha * 255) / 255,
   (alpha * p.G + invAlpha * 255) / 255,
   (alpha * p.B + invAlpha * 255) / 255, 255⟩

/-- Per-pixel step of `makeGrayscale`: hard luminance threshold.  The Go
code computes `0.299·R + 0.587·G + 0.114·B` in `float64` and compares with
`128`; this is modelled exactly over the integers scaled by 1000
(`299R + 587G + 114B < 128000`).  For 8-bit channels the two agree except
possibly when the exact luminance is precisely 128, a boundary no claim
touches. -/
def binarizePixel (p : pixel) : pixel :=
  let value := if p.R * 299 + p.G * 587 + p.B * 114 < 128000 then 0 else 255
  ⟨value, value, value, p.A⟩

/-- `removeTransparency`: in-place loop over `y < len(pixels)` and
`x < len(pixels[0])`, flattening each visited pixel; entries of a row
beyond the first row's length are untouched (the loop bound). -/
def removeTransparency (pixels : List (List pixel)) : List (List pixel) :=
  let width := (pixels.headD []).length
  pixels.map (fun row => (row.take width).map flattenPixel ++ row.drop width)

/-- `makeGrayscale`: same loop shape as `removeTransparency`, binarizing
each visited pixel. -/
def makeGrayscale (pixels : List (List pixel)) : List (List pixel) :=
  let width := (pixels.headD []).length
  pixels.map (fun row => (row.take width).map binarizePixel ++ row.drop width)

/-- `closestNDivisibleBy8`: round down to a multiple of 8. -/
def closestNDivisibleBy8 (n : Nat) : Nat := n / 8 * 8

/-- `getPixelValue`: bit value of a pixel — `1` for black (`R = 0`), `0`
otherwise.  (Go indexes the grid directly and would panic out of bounds;
reachable calls stay within the grid, and the model totalizes with an
all-zero default pixel.) -/
def getPixelValue (x y : Nat) (pixels : List (List pixel)) : Nat :=
  let p := (pixels.getD y []).getD x ⟨0, 0, 0, 0⟩
  if p.R > 0 then 0 else 1

/-- `rasterize`: reject dimensions that are not multiples of 8, else pack
each row into `printWidth/8` bytes, 8 horizontal pixels per byte,
most-significant bit first, rows top to bottom (byte `i = y·(pw>>3) + (x>>3)`
of the flat buffer, exactly the order produced here). -/
def rasterize (printWidth printHeight : Nat) (pixels : List (List pixel)) :
    Except String (List Nat) :=
  if printWidth % 8 ≠ 0 then
    Except.error "printWidth must be a multiple of 8"
  else if printHeight % 8 ≠ 0 then
    Except.error "printHeight must be a multiple of 8"
  else
    Except.ok ((List.range printHeight).flatMap (fun y =>
      (List.range (printWidth / 8)).map (fun xb =>
        let x := 8 * xb
        (getPixelValue (x + 0) y pixels <<< 7) |||
        (getPixelValue (x + 1) y pixels <<< 6) |||
        (getPixelValue (x + 2) y pixels <<< 5) |||
        (getPixelValue (x + 3) y pixels <<< 4) |||
        (getPixelValue (x + 4) y pixels <<< 3) |||
        (getPixelValue (x + 5) y pixels <<< 2) |||
        (getPixelValue (x + 6) y pixels <<< 1) |||
        getPixelValue (x + 7) y pixels)))

/-- `PrintImage`: decode (abort on failure, returning the error with no
bytes written), flatten alpha, binarize, round dimensions down to
multiples of 8, bit-pack (the `rasterize` error is discarded by
`bytes, _ := rasterize(...)`, leaving nil bytes), then write the raster
frame — fixed opcode `GS v 0 0`, original width `>> 3` low/high byte,
original height low/high byte, packed payload — as one `WriteRaw`. -/
def PrintImage (dec : Decoder) (imgFile : String) (e : Escpos) :
    Escpos × Option String :=
  match getPixels dec imgFile with
  | Except.error err => (e, some err)
  | Except.ok (width, height, pixels) =>
    let pixels := removeTransparency pixels
    let pixels := makeGrayscale pixels
    let printWidth := closestNDivisibleBy8 width
    let printHeight := closestNDivisibleBy8 height
    let bytes := match rasterize printWidth printHeight pixels with
      | Except.ok bs => bs
      | Except.error _ => []
    let imageData := [0x1D, 0x76, 0x30, 0x00,
      (width >>> 3) % 256, ((width >>> 3) >>> 8) % 256,
      height % 256, (height >>> 8) % 256] ++ bytes
    (writeB e imageData, none)

/-- The dimension-parameter handling of `Image` (source lines 485-507):
look up `Width` and `Height` (zero value `""` when absent) and run
`strconv.Atoi` on both; a missing key or a failed parse each logs a
critical diagnostic.  The parsed integers are never used. -/
def imageDimLogs (params : Params) (e : Escpos) : Escpos :=
  let widthStr := (getParam params "Width").getD ""
  let e := if (getParam params "Width").isNone then
      logLine e "No width specified on image"
    else e
  let heightStr := (getParam params "Height").getD ""
  let e := if (getParam params "Height").isNone then
      logLine e "No height specified on image"
    else e
  let e := if (atoi widthStr).isNone then
      logLine e ("Invalid image width " ++ widthStr)
    else e
  if (atoi heightStr).isNone then
    logLine e ("Invalid image height " ++ heightStr)
  else e

/-- `Image`: optional alignment; then the `Width`/`Height` diagnostics of
`imageDimLogs`, after which nothing is aborted — `PrintImage` runs
regardless (its returned error is discarded). -/
def Image (dec : Decoder) (params : Params) (data : String) (e : Escpos) :
    Escpos :=
  let e := match getParam params "Align" with
    | some a => SetAlign a e
    | none => e
  (PrintImage dec data (imageDimLogs params e)).1

/-- `WriteNode`: resolve the operation name — a *present but empty*
`Name` defaults to `"pulse"`, a *missing* `Name` key stays the zero-value
empty string — then dispatch; an unmatched name does nothing. -/
def WriteNode (dec : Decoder) (params : Params) (data : String) (e : Escpos) :
    Except goPanic Escpos :=
  let name := match getParam params "Name" with
    | some n => if n = "" then "pulse" else n
    | none => ""
  if name = "text" then Text params data e
  else if name = "feed" then Except.ok (Feed params e)
  else if name = "cut" then Except.ok (FeedAndCut params e)
  else if name = "pulse" then Except.ok (Pulse e)
  else if name = "image" then Except.ok (Image dec params data e)
  else Except.ok e

/-! Concrete instances used to evaluate the model. -/

/-- An 8×8 fully opaque, all-black decoded image. -/
def img8 : goImage := ⟨8, 8, fun _ _ => (0, 0, 0, 65535)⟩

/-- A decoder that succeeds on every payload with `img8`. -/
def dec1 : Decoder := fun _ => Except.ok img8

/-- A decoder that fails on every payload (malformed base64 / corrupt PNG). -/
def decFail : Decoder := fun _ => Except.error "bad png"

/-- A 16×16 fully opaque all-black pixel grid. -/
def blackImg16 : List (List pixel) :=
  List.replicate 16 (List.replicate 16 ⟨0, 0, 0, 255⟩)

/-- A 16×16 fully opaque all-white pixel grid. -/
def whiteImg16 : List (List pixel) :=
  List.replicate 16 (List.replicate 16 ⟨255, 255, 255, 255⟩)

/-! Helper lemmas. -/

/-- The resynchronization tail of `Feed`: linefeed, `reset`, then the six
style opcodes at their default values, appended in source order. -/
theorem feed_resync_shape (e : Escpos) :
    sendFontSize (sendUpsidedown (sendUnderline (sendReverse (sendRotate
        (sendEmphasize (reset (Linefeed e))))))) =
      { e with width := 1, height := 1, underline := 0, emphasize := 0,
               upsidedown := 0, rotate := 0, reverse := 0,
               out := e.out ++ [0x0A] ++
                 [0x1B, 0x45, 0, 0x1B, 0x56, 0, 0x1D, 0x42, 0,
                  0x1B, 0x2D, 0, 0x1B, 0x7B, 0, 0x1D, 0x21, 0] } := by
  simp [sendFontSize, sendUpsidedown, sendUnderline, sendReverse, sendRotate,
        sendEmphasize, reset, Linefeed, writeB, WriteRaw, u8sub1]

/-- Length of a rectangular `flatMap`/`map` over ranges. -/
theorem length_flatMap_range_map (n m : Nat) (f : Nat → Nat → Nat) :
    ((List.range n).flatMap (fun y => (List.range m).map (f y))).length =
      n * m := by
  induction n with
  | zero => simp
  | succ k ih =>
    rw [List.range_succ, List.flatMap_append, List.length_append, ih]
    simp [Nat.succ_mul]

/-- On dimensions that are multiples of 8, `rasterize` succeeds and its
packed output has one byte per 8 horizontal pixels per row. -/
theorem rasterize_ok_length (pw ph : Nat) (px : List (List pixel))
    (hw : pw % 8 = 0) (hh : ph % 8 = 0) :
    ∃ packed : List Nat,
      rasterize pw ph px = Except.ok packed ∧
      packed.length = ph * (pw / 8) := by
  simp only [rasterize, hw, hh, ne_eq, not_true_eq_false, if_false,
             reduceCtorEq, ite_false]
  exact ⟨_, rfl, length_flatMap_range_map _ _ _⟩

/-- `writeB` never touches the diagnostic log. -/
theorem writeB_log (x : Escpos) (d : List Nat) : (writeB x d).log = x.log := by
  simp only [writeB, WriteRaw]
  split <;> rfl

/-- `imageDimLogs` only logs; the byte stream is untouched. -/
theorem imageDimLogs_out (params : Params) (x : Escpos) :
    (imageDimLogs params x).out = x.out := by
  simp only [imageDimLogs]
  split_ifs <;> simp [logLine]

/-- `PrintImage` never touches the diagnostic log. -/
theorem PrintImage_log (dec : Decoder) (data : String) (x : Escpos) :
    (PrintImage dec data x).1.log = x.log := by
  simp only [PrintImage]
  rcases hg : getPixels dec data with err | trip
  · rfl
  · obtain ⟨w, h, px⟩ := trip
    simp [writeB_log]

/-- On a successfully decoded payload, `PrintImage` appends the raster
frame — the fixed opcode, the original-dimension bytes, and a packed
payload — to the byte stream. -/
theorem PrintImage_ok_out (dec : Decoder) (data : String) (x : Escpos)
    (img : goImage) (hdec : dec data = Except.ok img) :
    ∃ packed : List Nat,
      (PrintImage dec data x).1.out =
        x.out ++ [0x1D, 0x76, 0x30, 0x00,
          (img.width >>> 3) % 256, ((img.width >>> 3) >>> 8) % 256,
          img.height % 256, (img.height >>> 8) % 256] ++ packed := by
  obtain ⟨packed, hr, _⟩ :=
    rasterize_ok_length (closestNDivisibleBy8 img.width)
      (closestNDivisibleBy8 img.height)
      (makeGrayscale (removeTransparency
        ((List.range img.height).map (fun y =>
          (List.range img.width).map (fun x => rgbaToPixel (img.colorAt x y))))))
      (Nat.mul_mod_left _ 8) (Nat.mul_mod_left _ 8)
  refine ⟨packed, ?_⟩
  simp only [PrintImage, getPixels, hdec, hr, writeB, WriteRaw]
  simp

/-- A missing `Width` key logs its diagnostic. -/
theorem imageDimLogs_mem_width_none (params : Params) (x : Escpos)
    (h : getParam params "Width" = none) :
    "No width specified on image" ∈ (imageDimLogs params x).log := by
  simp only [imageDimLogs, h, Option.isNone_none, if_true]
  split_ifs <;> simp [logLine]

/-- A present but unparsable `Width` value logs its diagnostic. -/
theorem imageDimLogs_mem_width_bad (params : Params) (x : Escpos) (s : String)
    (hs : getParam params "Width" = some s) (ha : atoi s = none) :
    "Invalid image width " ++ s ∈ (imageDimLogs params x).log := by
  simp only [imageDimLogs, hs, ha, Option.getD_some, Option.isNone_some,
             Option.isNone_none, if_true, if_false]
  split_ifs <;> simp [logLine]

/-- A missing `Height` key logs its diagnostic. -/
theorem imageDimLogs_mem_height_none (params : Params) (x : Escpos)
    (h : getParam params "Height" = none) :
    "No height specified on image" ∈ (imageDimLogs params x).log := by
  simp only [imageDimLogs, h, Option.isNone_none, if_true]
  split_ifs <;> simp [logLine]

/-- A present but unparsable `Height` value logs its diagnostic. -/
theorem imageDimLogs_mem_height_bad (params : Params) (x : Escpos) (s : String)
    (hs : getParam params "Height" = some s) (ha : atoi s = none) :
    "Invalid image height " ++ s ∈ (imageDimLogs params x).log := by
  simp only [imageDimLogs, hs, ha, Option.getD_some, Option.isNone_some,
             Option.isNone_none, if_true, if_false]
  split_ifs <;> simp [logLine]

/-! Claim theorems. -/

/-- C2: the claim says an error returned by the sink's write call
propagates to the caller as fatal and is never silently discarded.  The
code does the opposite: `WriteRaw` invokes the sink, ignores both of its
return values, and returns the hard-coded `(0, nil)` — for *every* state,
payload and sink response, including an erroring one. -/
theorem C2_sink_error_discarded (e : Escpos) (data : List Nat)
    (sinkResp : Option String) :
    (WriteRaw e data sinkResp).2 = (0, none) := rfl

/-- C8: for every alignment name outside left/center/right, `SetAlign`
logs a warning and still emits the 3-byte opcode `ESC a 0` (index 0,
left); it never refuses to emit. -/
theorem C8_setAlign_unknown_still_emits (align : String) (e : Escpos)
    (h1 : align ≠ "left") (h2 : align ≠ "center") (h3 : align ≠ "right") :
    SetAlign align e =
      { e with out := e.out ++ [0x1B, 0x61, 0],
               log := e.log ++ ["Invalid alignment: " ++ align] } := by
  simp [SetAlign, h1, h2, h3, writeB, WriteRaw]

/-- Witness for C8 at the unknown name `"bogus"`. -/
theorem C8_witness :
    "bogus" ≠ "left" ∧ "bogus" ≠ "center" ∧ "bogus" ≠ "right" ∧
    SetAlign "bogus" escposNew =
      { escposNew with out := escposNew.out ++ [0x1B, 0x61, 0],
                       log := escposNew.log ++ ["Invalid alignment: " ++ "bogus"] } :=
  ⟨by decide, by decide, by decide,
   C8_setAlign_unknown_still_emits "bogus" escposNew
     (by decide) (by decide) (by decide)⟩

/-- C10: if the `Font` parameter is present with a value shorter than 6
characters, `Text` aborts with the out-of-range panic of the slice
`font[5:6]` instead of selecting a font and continuing. -/
theorem C10_text_short_font_panics (params : Params) (data : String)
    (e : Escpos) (font : String)
    (hf : getParam params "Font" = some font) (hlen : font.length < 6) :
    Text params data e =
      Except.error (goPanic.sliceOutOfRange 6 font.length) := by
  have hc : ¬ 6 ≤ font.length := by omega
  simp [Text, hf, goStrSlice, hc]

/-- Witness for C10 at `Font = "abc"` (length 3). -/
theorem C10_witness :
    getParam [("Font", "abc")] "Font" = some "abc" ∧
    ("abc" : String).length < 6 ∧
    Text [("Font", "abc")] "hello" escposNew =
      Except.error (goPanic.sliceOutOfRange 6 ("abc" : String).length) :=
  ⟨by decide, by decide,
   C10_text_short_font_panics [("Font", "abc")] "hello" escposNew "abc"
     (by decide) (by decide)⟩

/-- C9 counterexample: the claim also covers a parameter map with *no*
`Name` entry, but then the zero-valued name stays `""`, no dispatch case
matches, and nothing at all is performed — in particular the drawer-kick
opcode is not written (the output here is empty, not `ESC p 2`). -/
theorem C9_counterexample :
    WriteNode dec1 [] "" escposNew = Except.ok escposNew ∧
    escposNew.out = [] ∧ escposNew ≠ Pulse escposNew := by
  refine ⟨rfl, rfl, ?_⟩
  decide

/-- C9 amended: when the map binds `Name` to the empty string the
operation defaults to pulse and the drawer-kick opcode is written; when
the `Name` key is absent, `WriteNode` performs no operation at all. -/
theorem C9_empty_name_pulses_absent_does_nothing (dec : Decoder)
    (params : Params) (data : String) (e : Escpos) :
    (getParam params "Name" = some "" →
      WriteNode dec params data e = Except.ok (Pulse e)) ∧
    (getParam params "Name" = none →
      WriteNode dec params data e = Except.ok e) := by
  constructor <;> intro h <;> simp only [WriteNode, h] <;> rfl

/-- Witness for C9's amended claim at `Name = ""` and at a map without
`Name`. -/
theorem C9_witness :
    getParam [("Name", "")] "Name" = some "" ∧
    WriteNode dec1 [("Name", "")] "x" escposNew = Except.ok (Pulse escposNew) ∧
    getParam [] "Name" = none ∧
    WriteNode dec1 [] "x" escposNew = Except.ok escposNew :=
  ⟨by decide,
   (C9_empty_name_pulses_absent_does_nothing dec1 [("Name", "")] "x" escposNew).1 (by decide),
   by decide,
   (C9_empty_name_pulses_absent_does_nothing dec1 [] "x" escposNew).2 (by decide)⟩

/-- C6: the pipeline (flatten alpha, binarize, bit-pack) on a 16×16 fully
opaque all-black grid yields exactly 32 packed bytes all `0xFF`, and on a
16×16 fully opaque all-white grid 32 bytes all `0x00`. -/
theorem C6_black_white_16 :
    rasterize 16 16 (makeGrayscale (removeTransparency blackImg16)) =
      Except.ok (List.replicate 32 0xFF) ∧
    rasterize 16 16 (makeGrayscale (removeTransparency whiteImg16)) =
      Except.ok (List.replicate 32 0x00) :=
  ⟨rfl, rfl⟩

/-- C4: for `1 ≤ w,h ≤ 8`, `SetFontSize` stores width `w` and height
`min h 5` and emits the 3-byte opcode `GS !` whose final byte is
`(storedWidth-1) <<< 4 ||| (storedHeight-1)`; for `w` or `h` outside
`[1,8]` it logs a diagnostic, emits nothing, and leaves both stored
fields unchanged. -/
theorem C4_setFontSize (e : Escpos) (w h : Nat) :
    (1 ≤ w → w ≤ 8 → 1 ≤ h → h ≤ 8 →
      (SetFontSize w h e).width = w ∧
      (SetFontSize w h e).height = min h 5 ∧
      (SetFontSize w h e).out =
        e.out ++ [0x1D, 0x21, ((w - 1) <<< 4) ||| (min h 5 - 1)]) ∧
    (w = 0 ∨ 8 < w ∨ h = 0 ∨ 8 < h →
      (SetFontSize w h e).width = e.width ∧
      (SetFontSize w h e).height = e.height ∧
      (SetFontSize w h e).out = e.out ∧
      (SetFontSize w h e).log = e.log ++
        ["Invalid font size passed: " ++ toString w ++ " x " ++ toString h]) := by
  constructor
  · intro h1 h2 h3 h4
    have hcond : 0 < w ∧ 0 < h ∧ w ≤ 8 ∧ h ≤ 8 := ⟨h1, h3, h2, h4⟩
    have hw1 : (w + 255) % 256 = w - 1 := by omega
    have hsh : ((w - 1) <<< 4) % 256 = (w - 1) <<< 4 := by
      have h16 : (w - 1) <<< 4 = (w - 1) * 16 := by
        rw [Nat.shiftLeft_eq]
      rw [h16]; omega
    by_cases h5 : h > 5
    · have hmin : min h 5 = 5 := by omega
      simp [SetFontSize, sendFontSize, writeB, WriteRaw, logLine, u8sub1,
            hcond, h5, hmin, hw1, hsh]
    · have hmin : min h 5 = h := by omega
      have hh1 : (h + 255) % 256 = h - 1 := by omega
      simp [SetFontSize, sendFontSize, writeB, WriteRaw, logLine, u8sub1,
            hcond, h5, hmin, hw1, hsh, hh1]
  · intro hout
    have hcond : ¬ (0 < w ∧ 0 < h ∧ w ≤ 8 ∧ h ≤ 8) := by omega
    simp [SetFontSize, logLine, hcond]

/-- Witness for C4 at `(3,7)` (in range, height capped to 5, final byte
`(3-1)<<4 | (5-1) = 0x24`) and at `(9,2)` (out of range: rejected). -/
theorem C4_witness :
    ((SetFontSize 3 7 escposNew).width = 3 ∧
     (SetFontSize 3 7 escposNew).height = min 7 5 ∧
     (SetFontSize 3 7 escposNew).out =
       escposNew.out ++ [0x1D, 0x21, ((3 - 1) <<< 4) ||| (min 7 5 - 1)]) ∧
    ((SetFontSize 9 2 escposNew).width = escposNew.width ∧
     (SetFontSize 9 2 escposNew).height = escposNew.height ∧
     (SetFontSize 9 2 escposNew).out = escposNew.out ∧
     (SetFontSize 9 2 escposNew).log = escposNew.log ++
       ["Invalid font size passed: " ++ toString 9 ++ " x " ++ toString 2]) :=
  ⟨(C4_setFontSize escposNew 3 7).1 (by decide) (by decide) (by decide) (by decide),
   (C4_setFontSize escposNew 9 2).2 (Or.inr (Or.inl (by decide)))⟩

/-- C7: for every prior state and parameter map, `Feed` leaves the session
state at the defaults `(width 1, height 1, all toggles 0)` and, after the
feed, re-emits the emphasize, rotate, reverse, underline, upside-down and
font-size opcodes at those default values, in that order. -/
theorem C7_feed_resets_and_resyncs (params : Params) (e : Escpos) :
    (Feed params e).width = 1 ∧ (Feed params e).height = 1 ∧
    (Feed params e).underline = 0 ∧ (Feed params e).emphasize = 0 ∧
    (Feed params e).upsidedown = 0 ∧ (Feed params e).rotate = 0 ∧
    (Feed params e).reverse = 0 ∧
    ∃ pre : List Nat,
      (Feed params e).out = e.out ++ pre ++ [0x0A] ++
        [0x1B, 0x45, 0, 0x1B, 0x56, 0, 0x1D, 0x42, 0,
         0x1B, 0x2D, 0, 0x1B, 0x7B, 0, 0x1D, 0x21, 0] := by
  obtain ⟨pre, hpre⟩ : ∃ pre : List Nat,
      (feedParams params e).out = e.out ++ pre := by
    unfold feedParams
    rcases hL : getParam params "Line" with _ | l <;>
      rcases hU : getParam params "Unit" with _ | u <;>
        simp only [hL, hU]
    · exact ⟨[], by simp⟩
    · rcases hA : atoi u with _ | i
      · exact ⟨[], by simp [hA, logLine]⟩
      · exact ⟨_, by simp [hA, sendMoveY, writeB, WriteRaw]; rfl⟩
    · rcases hA : atoi l with _ | i
      · exact ⟨[], by simp [hA, logLine]⟩
      · exact ⟨_, by simp [hA, FormfeedN, writeB, WriteRaw]; rfl⟩
    · rcases hA : atoi l with _ | i <;>
        rcases hB : atoi u with _ | j
      · exact ⟨[], by simp [hA, hB, logLine]⟩
      · exact ⟨_, by simp [hA, hB, logLine, sendMoveY, writeB, WriteRaw]; rfl⟩
      · exact ⟨_, by simp [hA, hB, logLine, FormfeedN, writeB, WriteRaw]; rfl⟩
      · exact ⟨_, by simp [hA, hB, FormfeedN, sendMoveY, writeB, WriteRaw,
                           List.append_assoc]; rfl⟩
  rw [Feed, feed_resync_shape]
  refine ⟨rfl, rfl, rfl, rfl, rfl, rfl, rfl, pre, ?_⟩
  simp [hpre]

/-- C1 counterexample: an `Image` operation whose parameter map has
neither `Width` nor `Height` is *not* fatal — with a payload that decodes
(here: an 8×8 all-black image) the full raster frame is still written to
the sink, refuting "no bytes are written". -/
theorem C1_counterexample :
    getParam [] "Width" = none ∧ getParam [] "Height" = none ∧
    (Image dec1 [] "payload" escposNew).out =
      [0x1D, 0x76, 0x30, 0x00, 1, 0, 8, 0,
       255, 255, 255, 255, 255, 255, 255, 255] ∧
    (Image dec1 [] "payload" escposNew).out ≠ [] := by
  refine ⟨rfl, rfl, rfl, ?_⟩
  decide

/-- C1 amended: for *every* parameter map, the `Image` operation is never
aborted — it always proceeds to `PrintImage`, so the raster frame is
written to the sink whenever the payload decodes — and each dimension
failure (missing `Width` key, missing `Height` key, present but
unparsable `Width` value, present but unparsable `Height` value) is
reported as its critical log line rather than being fatal. -/
theorem C1_missing_dims_only_logged (dec : Decoder) (params : Params)
    (data : String) (e : Escpos) :
    (∀ img : goImage, dec data = Except.ok img →
      ∃ pre packed : List Nat,
        (Image dec params data e).out =
          e.out ++ pre ++ [0x1D, 0x76, 0x30, 0x00,
            (img.width >>> 3) % 256, ((img.width >>> 3) >>> 8) % 256,
            img.height % 256, (img.height >>> 8) % 256] ++ packed) ∧
    (getParam params "Width" = none →
      "No width specified on image" ∈ (Image dec params data e).log) ∧
    (∀ s : String, getParam params "Width" = some s → atoi s = none →
      "Invalid image width " ++ s ∈ (Image dec params data e).log) ∧
    (getParam params "Height" = none →
      "No height specified on image" ∈ (Image dec params data e).log) ∧
    (∀ s : String, getParam params "Height" = some s → atoi s = none →
      "Invalid image height " ++ s ∈ (Image dec params data e).log) := by
  obtain ⟨pre0, hpre0⟩ : ∃ pre0 : List Nat,
      (match getParam params "Align" with
        | some a => SetAlign a e
        | none => e).out = e.out ++ pre0 := by
    rcases hA : getParam params "Align" with _ | a
    · simp only [hA]
      exact ⟨[], by simp⟩
    · simp only [hA]
      exact ⟨_, rfl⟩
  refine ⟨?_, ?_, ?_, ?_, ?_⟩
  · intro img hdec
    obtain ⟨packed, hout⟩ := PrintImage_ok_out dec data
      (imageDimLogs params (match getParam params "Align" with
        | some a => SetAlign a e
        | none => e)) img hdec
    refine ⟨pre0, packed, ?_⟩
    simp only [Image]
    rw [hout, imageDimLogs_out, hpre0]
  · intro h
    simp only [Image, PrintImage_log]
    exact imageDimLogs_mem_width_none params _ h
  · intro s hs ha
    simp only [Image, PrintImage_log]
    exact imageDimLogs_mem_width_bad params _ s hs ha
  · intro h
    simp only [Image, PrintImage_log]
    exact imageDimLogs_mem_height_none params _ h
  · intro s hs ha
    simp only [Image, PrintImage_log]
    exact imageDimLogs_mem_height_bad params _ s hs ha

/-- Witness for C1's amended claim: with no parameters at all (both keys
missing) the frame is still written and both missing-key diagnostics are
logged; with `Width = "abc"`, `Height = "7x"` both unparsable-value
diagnostics are logged. -/
theorem C1_witness :
    getParam [] "Width" = none ∧ getParam [] "Height" = none ∧
    dec1 "payload" = Except.ok img8 ∧
    (∃ pre packed : List Nat,
      (Image dec1 [] "payload" escposNew).out =
        escposNew.out ++ pre ++ [0x1D, 0x76, 0x30, 0x00,
          (img8.width >>> 3) % 256, ((img8.width >>> 3) >>> 8) % 256,
          img8.height % 256, (img8.height >>> 8) % 256] ++ packed) ∧
    "No width specified on image" ∈ (Image dec1 [] "payload" escposNew).log ∧
    "No height specified on image" ∈ (Image dec1 [] "payload" escposNew).log ∧
    getParam [("Width", "abc"), ("Height", "7x")] "Width" = some "abc" ∧
    atoi "abc" = none ∧
    "Invalid image width " ++ "abc" ∈
      (Image dec1 [("Width", "abc"), ("Height", "7x")] "payload" escposNew).log ∧
    getParam [("Width", "abc"), ("Height", "7x")] "Height" = some "7x" ∧
    atoi "7x" = none ∧
    "Invalid image height " ++ "7x" ∈
      (Image dec1 [("Width", "abc"), ("Height", "7x")] "payload" escposNew).log :=
  ⟨rfl, rfl, rfl,
   (C1_missing_dims_only_logged dec1 [] "payload" escposNew).1 img8 rfl,
   (C1_missing_dims_only_logged dec1 [] "payload" escposNew).2.1 rfl,
   (C1_missing_dims_only_logged dec1 [] "payload" escposNew).2.2.2.1 rfl,
   rfl, by decide,
   (C1_missing_dims_only_logged dec1 [("Width", "abc"), ("Height", "7x")]
     "payload" escposNew).2.2.1 "abc" rfl (by decide),
   rfl, by decide,
   (C1_missing_dims_only_logged dec1 [("Width", "abc"), ("Height", "7x")]
     "payload" escposNew).2.2.2.2 "7x" rfl (by decide)⟩

/-- C3: when the payload does not decode (malformed base64 or corrupt
image data), `PrintImage` writes nothing, leaves the state untouched and
returns the decode error to its caller; at the `Image` operation level
(with no alignment parameter) the sink likewise receives zero bytes. -/
theorem C3_decode_error_no_bytes (dec : Decoder) (params : Params)
    (data : String) (e : Escpos) (err : String)
    (hdec : dec data = Except.error err)
    (halign : getParam params "Align" = none) :
    PrintImage dec data e = (e, some err) ∧
    (Image dec params data e).out = e.out := by
  have hpi : ∀ e2 : Escpos, PrintImage dec data e2 = (e2, some err) := by
    intro e2
    simp [PrintImage, getPixels, hdec]
  refine ⟨hpi e, ?_⟩
  simp only [Image, halign, hpi, imageDimLogs_out]

/-- Witness for C3 with the always-failing decoder. -/
theorem C3_witness :
    decFail "x" = Except.error "bad png" ∧ getParam [] "Align" = none ∧
    PrintImage decFail "x" escposNew = (escposNew, some "bad png") ∧
    (Image decFail [] "x" escposNew).out = escposNew.out :=
  ⟨rfl, rfl,
   (C3_decode_error_no_bytes decFail [] "x" escposNew "bad png" rfl rfl).1,
   (C3_decode_error_no_bytes decFail [] "x" escposNew "bad png" rfl rfl).2⟩

/-- C5: for every decoded image, `PrintImage` writes one frame whose 4
dimension bytes encode the *original* width (`w >>> 3`, low then high
byte) and *original* height (low then high byte), while the packed bitmap
that follows has exactly `(⌊w/8⌋·8 · ⌊h/8⌋·8) / 8` bytes (dimensions
rounded down to multiples of 8).  The positivity hypotheses mirror the
decoder contract (PNG dimensions are ≥ 1; a zero-height grid would panic
in Go's `removeTransparency`). -/
theorem C5_frame_header_and_packed_length (dec : Decoder) (data : String)
    (e : Escpos) (img : goImage)
    (hdec : dec data = Except.ok img)
    (hw : 1 ≤ img.width) (hh : 1 ≤ img.height) :
    ∃ packed : List Nat,
      (PrintImage dec data e).1.out =
        e.out ++ [0x1D, 0x76, 0x30, 0x00,
          (img.width >>> 3) % 256, ((img.width >>> 3) >>> 8) % 256,
          img.height % 256, (img.height >>> 8) % 256] ++ packed ∧
      packed.length = (img.width / 8 * 8) * (img.height / 8 * 8) / 8 := by
  have hwm : closestNDivisibleBy8 img.width % 8 = 0 := Nat.mul_mod_left _ 8
  have hhm : closestNDivisibleBy8 img.height % 8 = 0 := Nat.mul_mod_left _ 8
  obtain ⟨packed, hr, hlen⟩ :=
    rasterize_ok_length (closestNDivisibleBy8 img.width)
      (closestNDivisibleBy8 img.height)
      (makeGrayscale (removeTransparency
        ((List.range img.height).map (fun y =>
          (List.range img.width).map (fun x => rgbaToPixel (img.colorAt x y))))))
      hwm hhm
  refine ⟨packed, ?_, ?_⟩
  · simp only [PrintImage, getPixels, hdec, hr, writeB, WriteRaw]
    simp
  · rw [hlen]
    have h8 : (0 : Nat) < 8 := by norm_num
    simp only [closestNDivisibleBy8]
    rw [Nat.mul_div_cancel _ h8]
    have : img.width / 8 * 8 * (img.height / 8 * 8) =
        img.width / 8 * 8 * (img.height / 8) * 8 := by ring
    rw [this, Nat.mul_div_cancel _ h8]
    ring

/-- Witness for C5 with the 8×8 all-black image: header dims `1,0,8,0`
and an 8-byte packed payload. -/
theorem C5_witness :
    dec1 "payload" = Except.ok img8 ∧ 1 ≤ img8.width ∧ 1 ≤ img8.height ∧
    (∃ packed : List Nat,
      (PrintImage dec1 "payload" escposNew).1.out =
        escposNew.out ++ [0x1D, 0x76, 0x30, 0x00,
          (img8.width >>> 3) % 256, ((img8.width >>> 3) >>> 8) % 256,
          img8.height % 256, (img8.height >>> 8) % 256] ++ packed ∧
      packed.length = (img8.width / 8 * 8) * (img8.height / 8 * 8) / 8) :=
  ⟨rfl, by decide, by decide,
   C5_frame_header_and_packed_length dec1 "payload" escposNew img8 rfl
     (by decide) (by decide)⟩

end escpos
